import Mathlib

/-!
Verification of the neat-fetch request engine (src/index.ts) against its
natural-language specification. The TypeScript source is shallowly embedded:
JS runtime values become explicit Lean data, the async retry loop becomes a
recursive function that also records its sleep trace and attempt count, and
the tuple result protocol `[T, null] | [null, Error]` is modelled literally
as a pair of options so that "both slots empty" is expressible.

Environmental pieces that the engine only observes are abstracted as data
carried by the transport outcome: the computed Retry-After wait (the code
parses the header via Number/Date.parse and Date.now, which are ambient),
and the outcome of each body-consuming method of a Response.
-/

deriving instance DecidableEq for Except

namespace NeatFetch

/-- Model of a JS Error value as the engine observes it. `name` is the JS
error name (the code branches on "AbortError"). The two `abortedBy` flags
record the provenance of an abort error - information the runtime has but
the code never inspects - so that spec sentences that distinguish a
caller-token abort from an internal-timeout abort can be stated. -/
structure JsError where
  name : String := "Error"
  message : String := ""
  status : Option Nat := none
  statusText : Option String := none
  url : Option String := none
  abortedByCallerToken : Bool := false
  abortedByInternalTimeout : Bool := false
deriving Repr, DecidableEq

/-- Opaque stand-in for a decoded JSON value (the engine never inspects it). -/
structure JsonData where
  raw : String
deriving Repr, DecidableEq

/-- Opaque stand-in for a Blob body. -/
structure BlobData where
  raw : String
deriving Repr, DecidableEq

/-- Opaque stand-in for an ArrayBuffer body. -/
structure BufData where
  raw : String
deriving Repr, DecidableEq

/-- Opaque stand-in for a FormData body. -/
structure FormVal where
  raw : String
deriving Repr, DecidableEq

/-- Opaque stand-in for a ReadableStream handle (`response.body`). -/
structure StreamHandle where
  id : Nat
deriving Repr, DecidableEq

/-- Model of the parts of a fetch Response the engine reads. Body-consuming
methods (`json()`, `text()`, ...) either produce a value or throw; each is
modelled as an `Except` outcome. `hasRetryAfter`/`retryAfterMs` model
`headers.has("Retry-After")` and the millisecond wait the code computes from
that header (Number / Date.parse / Date.now are ambient, so the computed
value is taken as given). `contentLength` models
`headers.get("Content-Length")`. -/
structure Response where
  status : Nat
  statusText : String := ""
  hasRetryAfter : Bool := false
  retryAfterMs : Int := 0
  contentLength : Option String := none
  jsonR : Except JsError JsonData := .error { name := "SyntaxError" }
  textR : Except JsError String := .ok ""
  blobR : Except JsError BlobData := .ok { raw := "" }
  bufR : Except JsError BufData := .ok { raw := "" }
  formR : Except JsError FormVal := .error { name := "TypeError" }
  body : Option StreamHandle := none
deriving Repr, DecidableEq

/-- `Response.ok`: status in the inclusive range 200-299, as in the fetch
standard. -/
def Response.ok (r : Response) : Bool :=
  decide (200 ≤ r.status ∧ r.status ≤ 299)

/-- One transport call either resolves with a Response or rejects with an
error (network failure, abort, ...). -/
inductive TransportOutcome where
  | resp (r : Response)
  | err (e : JsError)
deriving Repr, DecidableEq

/-- A transport is modelled as a function from the attempt index to the
outcome of that attempt (the injected `fetchFn`, one call per attempt). -/
def Transport : Type := Nat → TransportOutcome

/-- The engine configuration after the constructor has run:
`retryCount = options.retry || 0`, `retryDelayMs = options.retryDelay || 1000`,
`timeoutMs = options.timeout`, `hasCallerSignal` records whether
`requestInit.signal` is set, and `finalUrl` is the composed URL. -/
structure Config where
  retryCount : Nat := 0
  retryDelayMs : Int := 1000
  timeoutMs : Option Int := none
  hasCallerSignal : Bool := false
  finalUrl : String := ""
deriving Repr, DecidableEq

/-- A wait performed by the engine: either the Retry-After cooperation wait
or the linear backoff wait before a retry. -/
inductive SleepEvent where
  | retryAfterWait (ms : Int)
  | backoff (ms : Int)
deriving Repr, DecidableEq

/-- The literal JS tuple `[T, null] | [null, Error]` (and, as the code turns
out to also produce, `[null, null]`): a pair of optional slots. -/
abbrev FetchResultT (T : Type) : Type := Option T × Option JsError

/-- What one run of `executeWithRetry` produces: the settled tuple, the
ordered list of sleeps it performed, and how many transport calls it made. -/
structure RunOut where
  result : FetchResultT Response
  sleeps : List SleepEvent
  attempts : Nat
deriving Repr, DecidableEq

/-- The HttpError the code builds for a non-ok response. -/
def httpErrorOf (cfg : Config) (r : Response) : JsError :=
  { name := "Error"
    message := "HTTP " ++ toString r.status ++ ": " ++ r.statusText
    status := some r.status
    statusText := some r.statusText
    url := some cfg.finalUrl }

/-- The Retry-After cooperation sleeps for a 429 response:
`if (status === 429 && headers.has("Retry-After")) { ... if (retryAfterMs > 0) await sleep(retryAfterMs) }`. -/
def retryAfterSleeps (r : Response) : List SleepEvent :=
  if r.status = 429 ∧ r.hasRetryAfter ∧ 0 < r.retryAfterMs then
    [.retryAfterWait r.retryAfterMs]
  else []

/-- `NeatFetch.executeWithRetry(attempt)` (src/index.ts lines 185-256).
On a resolved response: ok returns the response; non-ok builds the
HttpError, performs the Retry-After wait, then retries (backoff
`retryDelayMs * (attempt + 1)`) iff `attempt < retryCount` and
(status >= 500 or status == 429), else settles with the error.
On a rejected transport call: retries with the same backoff iff
`attempt < retryCount` and the error name is not "AbortError", else
settles with the error. The per-attempt AbortController / timeout wiring
is modelled separately (see `attachedSignalId` below) since it does not
influence this control flow beyond the outcome the transport reports. -/
def executeWithRetry (cfg : Config) (transport : Transport) (attempt : Nat) :
    RunOut :=
  match transport attempt with
  | .resp response =>
    if response.ok then
      { result := (some response, none), sleeps := [], attempts := 1 }
    else
      let error := httpErrorOf cfg response
      let raSleeps := retryAfterSleeps response
      if h : attempt < cfg.retryCount ∧ (500 ≤ response.status ∨ response.status = 429) then
        let rest := executeWithRetry cfg transport (attempt + 1)
        { result := rest.result
          sleeps := raSleeps ++ [.backoff (cfg.retryDelayMs * (attempt + 1))] ++ rest.sleeps
          attempts := rest.attempts + 1 }
      else
        { result := (none, some error), sleeps := raSleeps, attempts := 1 }
  | .err fetchError =>
    if h : attempt < cfg.retryCount ∧ fetchError.name ≠ "AbortError" then
      let rest := executeWithRetry cfg transport (attempt + 1)
      { result := rest.result
        sleeps := [.backoff (cfg.retryDelayMs * (attempt + 1))] ++ rest.sleeps
        attempts := rest.attempts + 1 }
    else
      { result := (none, some fetchError), sleeps := [], attempts := 1 }
termination_by cfg.retryCount - attempt
decreasing_by
  · omega
  · omega

/-- The TypeError JS raises when the unreachable `[null, null]` shape would
flow out of `execute()` and the decoder then reads `response.status` on
null. Provably never produced by `executeWithRetry` (see below). -/
def nullRespError : JsError :=
  { name := "TypeError", message := "Cannot read properties of null" }

/-- `NeatFetch.json()` applied to the settled `execute()` tuple:
error passes through; a 204 status or a literal "0" Content-Length header
short-circuits to `[null, null]`; otherwise `response.json()` is awaited
inside try/catch. -/
def jsonDecode (res : FetchResultT Response) : FetchResultT JsonData :=
  match res with
  | (_, some error) => (none, some error)
  | (none, none) => (none, some nullRespError)
  | (some response, none) =>
    if response.status = 204 ∨ response.contentLength = some "0" then
      (none, none)
    else
      match response.jsonR with
      | .ok data => (some data, none)
      | .error parseError => (none, some parseError)

/-- `NeatFetch.text()` applied to the settled `execute()` tuple. -/
def textDecode (res : FetchResultT Response) : FetchResultT String :=
  match res with
  | (_, some error) => (none, some error)
  | (none, none) => (none, some nullRespError)
  | (some response, none) =>
    match response.textR with
    | .ok data => (some data, none)
    | .error parseError => (none, some parseError)

/-- `NeatFetch.blob()` applied to the settled `execute()` tuple. -/
def blobDecode (res : FetchResultT Response) : FetchResultT BlobData :=
  match res with
  | (_, some error) => (none, some error)
  | (none, none) => (none, some nullRespError)
  | (some response, none) =>
    match response.blobR with
    | .ok data => (some data, none)
    | .error parseError => (none, some parseError)

/-- `NeatFetch.arrayBuffer()` applied to the settled `execute()` tuple. -/
def arrayBufferDecode (res : FetchResultT Response) : FetchResultT BufData :=
  match res with
  | (_, some error) => (none, some error)
  | (none, none) => (none, some nullRespError)
  | (some response, none) =>
    match response.bufR with
    | .ok data => (some data, none)
    | .error parseError => (none, some parseError)

/-- `NeatFetch.formData()` applied to the settled `execute()` tuple. -/
def formDataDecode (res : FetchResultT Response) : FetchResultT FormVal :=
  match res with
  | (_, some error) => (none, some error)
  | (none, none) => (none, some nullRespError)
  | (some response, none) =>
    match response.formR with
    | .ok data => (some data, none)
    | .error parseError => (none, some parseError)

/-- `NeatFetch.stream()` applied to the settled `execute()` tuple: returns
`[response.body, null]` with no try/catch; `response.body` itself may be
null. -/
def streamDecode (res : FetchResultT Response) : FetchResultT StreamHandle :=
  match res with
  | (_, some error) => (none, some error)
  | (none, none) => (none, some nullRespError)
  | (some response, none) => (response.body, none)

/-- The `ExecutionResult` that `then` resolves its fulfillment continuation
with: `this.execute().then(onFulfilled, onRejected)` delivers the settled
tuple unchanged (continuations are caller code, outside the engine). -/
def thenOp (cfg : Config) (transport : Transport) : FetchResultT Response :=
  (executeWithRetry cfg transport 0).result

/-- The `ExecutionResult` behind `catch`: `this.execute().then(null, onRejected)`. -/
def catchOp (cfg : Config) (transport : Transport) : FetchResultT Response :=
  (executeWithRetry cfg transport 0).result

/-- The `ExecutionResult` behind `finally`: `this.execute().finally(onFinally)`. -/
def finallyOp (cfg : Config) (transport : Transport) : FetchResultT Response :=
  (executeWithRetry cfg transport 0).result

/-- `NeatFetch.json()` as a whole-pipeline operation on one instance. -/
def jsonOp (cfg : Config) (transport : Transport) : FetchResultT JsonData :=
  jsonDecode (executeWithRetry cfg transport 0).result

/-- `NeatFetch.text()` as a whole-pipeline operation on one instance. -/
def textOp (cfg : Config) (transport : Transport) : FetchResultT String :=
  textDecode (executeWithRetry cfg transport 0).result

/-- `NeatFetch.blob()` as a whole-pipeline operation on one instance. -/
def blobOp (cfg : Config) (transport : Transport) : FetchResultT BlobData :=
  blobDecode (executeWithRetry cfg transport 0).result

/-- `NeatFetch.arrayBuffer()` as a whole-pipeline operation on one instance. -/
def arrayBufferOp (cfg : Config) (transport : Transport) : FetchResultT BufData :=
  arrayBufferDecode (executeWithRetry cfg transport 0).result

/-- `NeatFetch.formData()` as a whole-pipeline operation on one instance. -/
def formDataOp (cfg : Config) (transport : Transport) : FetchResultT FormVal :=
  formDataDecode (executeWithRetry cfg transport 0).result

/-- `NeatFetch.stream()` as a whole-pipeline operation on one instance. -/
def streamOp (cfg : Config) (transport : Transport) : FetchResultT StreamHandle :=
  streamDecode (executeWithRetry cfg transport 0).result

/-- The mutable per-instance state: `private executionPromise?` holding the
memoized run once execution has started. -/
structure InstState where
  executionPromise : Option RunOut := none
deriving Repr, DecidableEq

/-- `NeatFetch.execute()`: start `executeWithRetry()` on first call and
memoize; afterwards return the memoized run. Also reports how many
transport calls this invocation itself issued (the attempts of a fresh run,
or 0 when the memo was hit). -/
def execute (cfg : Config) (transport : Transport) (st : InstState) :
    RunOut × InstState × Nat :=
  match st.executionPromise with
  | some run => (run, st, 0)
  | none =>
    let run := executeWithRetry cfg transport 0
    (run, { executionPromise := some run }, run.attempts)

/-- The ways one can consume the same instance; each of
`then`/`catch`/`finally` and each decoding method begins with
`await this.execute()`. -/
inductive ConsumeOp where
  | thenC | catchC | finallyC | jsonC | textC | blobC | arrayBufferC | formDataC | streamC
deriving Repr, DecidableEq

/-- One consumption of the instance: every `ConsumeOp` calls `execute()`
exactly once and then post-processes its tuple without further transport
calls. Returns the run the consumption observed, the new state, and the
transport calls issued. -/
def consume (cfg : Config) (transport : Transport) (st : InstState)
    (_op : ConsumeOp) : RunOut × InstState × Nat :=
  execute cfg transport st

/-- A sequence of consumptions of one instance, accumulating the observed
runs and the total number of transport calls issued. -/
def consumeAll (cfg : Config) (transport : Transport) (st : InstState) :
    List ConsumeOp → List RunOut × InstState × Nat
  | [] => ([], st, 0)
  | op :: ops =>
    let (run, st1, calls) := consume cfg transport st op
    let (runs, st2, total) := consumeAll cfg transport st1 ops
    (run :: runs, st2, calls + total)

/-! URL composition (`NeatFetch.buildUrl`, src/index.ts lines 127-179).
Strings are processed as character lists. The URL value produced by
`new URL(...)` is modelled as the text before the first `?` plus the parsed
search parameter list; percent-decoding of a pre-existing query string and
dot-segment normalization are modelled as the identity (the engine never
composes URLs where they differ in the verified claims), and the browser
`window.location` fallback branch is not taken (Node environment). -/

/-- Characters allowed after the first character of a URL scheme. -/
def isSchemeChar (c : Char) : Bool :=
  c.isAlphanum || c == '+' || c == '-' || c == '.'

/-- Scan the tail of a candidate scheme: scheme characters up to a colon. -/
def schemeTail : List Char → Bool
  | [] => false
  | c :: rest => if c == ':' then true else isSchemeChar c && schemeTail rest

/-- Whether `new URL(s)` succeeds, i.e. `s` is an absolute URL: an ASCII
letter followed by scheme characters and a colon. -/
def hasScheme (s : String) : Bool :=
  match s.toList with
  | [] => false
  | c :: rest => c.isAlpha && schemeTail rest

/-- One application of the regex replace `/\/$/` with the empty string:
drop exactly one trailing slash. -/
def stripTrailingSlash (s : String) : String :=
  match s.toList.getLast? with
  | some '/' => String.mk s.toList.dropLast
  | _ => s

/-- One application of the regex replace `/^\//` with the empty string:
drop exactly one leading slash. -/
def stripLeadingSlash (s : String) : String :=
  match s.toList with
  | '/' :: rest => String.mk rest
  | _ => s

/-- Split a character list at the first occurrence of `sep`. -/
def splitAtFirst (sep : Char) : List Char → List Char × Option (List Char)
  | [] => ([], none)
  | c :: rest =>
    if c == sep then ([], some rest)
    else
      let (pre, post) := splitAtFirst sep rest
      (c :: pre, post)

/-- Split a character list at every occurrence of `sep`. -/
def splitAll (sep : Char) : List Char → List (List Char)
  | [] => [[]]
  | c :: rest =>
    let groups := splitAll sep rest
    if c == sep then [] :: groups
    else
      match groups with
      | [] => [[c]]
      | g :: gs => (c :: g) :: gs

/-- Parse a raw query string into key/value pairs the way URLSearchParams
does: split on ampersands, skip empty segments, split each segment at the
first equals sign (missing value means the empty string). -/
def parseQueryPairs (q : List Char) : List (String × String) :=
  (splitAll '&' q).filterMap fun seg =>
    if seg.isEmpty then none
    else
      let (k, v) := splitAtFirst '=' seg
      some (String.mk k, String.mk (v.getD []))

/-- UTF-8 encoding of a code point, as the byte values. -/
def utf8Encode (n : Nat) : List Nat :=
  if n < 0x80 then [n]
  else if n < 0x800 then [0xC0 + n / 0x40, 0x80 + n % 0x40]
  else if n < 0x10000 then
    [0xE0 + n / 0x1000, 0x80 + n / 0x40 % 0x40, 0x80 + n % 0x40]
  else
    [0xF0 + n / 0x40000, 0x80 + n / 0x1000 % 0x40, 0x80 + n / 0x40 % 0x40,
      0x80 + n % 0x40]

/-- Uppercase hexadecimal digit. -/
def hexDigit (n : Nat) : Char :=
  if n < 10 then Char.ofNat (48 + n) else Char.ofNat (55 + n)

/-- Percent-encode one byte. -/
def percentEncodeByte (b : Nat) : List Char :=
  ['%', hexDigit (b / 16), hexDigit (b % 16)]

/-- Bytes kept verbatim by application/x-www-form-urlencoded serialization:
ASCII alphanumerics and asterisk, hyphen, period, underscore. -/
def isFormSafeByte (b : Nat) : Bool :=
  (48 ≤ b && b ≤ 57) || (65 ≤ b && b ≤ 90) || (97 ≤ b && b ≤ 122) ||
    b == 42 || b == 45 || b == 46 || b == 95

/-- Encode one character for a URLSearchParams serialization: space becomes
a plus sign, safe bytes stay, everything else is percent-encoded per UTF-8
byte. -/
def formEncodeChar (c : Char) : List Char :=
  if c == ' ' then ['+']
  else if c.toNat < 128 && isFormSafeByte c.toNat then [c]
  else (utf8Encode c.toNat).flatMap percentEncodeByte

/-- URLSearchParams percent-encoding of a string. -/
def formUrlEncode (s : String) : List Char :=
  s.toList.flatMap formEncodeChar

/-- Join encoded pairs with ampersands. -/
def joinAmp : List (List Char) → List Char
  | [] => []
  | [x] => x
  | x :: xs => x ++ '&' :: joinAmp xs

/-- Serialize search parameters as URL.toString does: empty list yields no
query part, otherwise a question mark followed by encoded key=value pairs. -/
def serializeQuery (ps : List (String × String)) : List Char :=
  match ps with
  | [] => []
  | _ =>
    '?' :: joinAmp (ps.map fun p => formUrlEncode p.1 ++ '=' :: formUrlEncode p.2)

/-- Model of the `URL` object: the serialized text before the first
question mark, and the mutable `searchParams` list. -/
structure URLModel where
  base : String
  searchParams : List (String × String)
deriving Repr, DecidableEq

/-- `urlInstance.toString()`. -/
def URLModel.render (u : URLModel) : String :=
  u.base ++ String.mk (serializeQuery u.searchParams)

/-- `new URL(s)` for an absolute `s`, else failure. -/
def parseAbsolute (s : String) : Option URLModel :=
  if hasScheme s then
    let (pre, q) := splitAtFirst '?' s.toList
    some { base := String.mk pre, searchParams := parseQueryPairs (q.getD []) }
  else none

/-- The `urlInstance` resolution of `buildUrl`: parse as absolute, else the
Node fallback `new URL(targetUrl, "http://localhost")`. -/
def parseUrlInstance (targetUrl : String) : URLModel :=
  match parseAbsolute targetUrl with
  | some u => u
  | none =>
    let joined :=
      match targetUrl.toList with
      | '/' :: _ => "http://localhost" ++ targetUrl
      | _ => "http://localhost/" ++ targetUrl
    let (pre, q) := splitAtFirst '?' joined.toList
    { base := String.mk pre, searchParams := parseQueryPairs (q.getD []) }

/-- A JS scalar query-parameter value, with its `String(v)` conversion. -/
inductive Scalar where
  | s (v : String)
  | n (v : Int)
  | b (v : Bool)
deriving Repr, DecidableEq

/-- JS `String(v)` for a scalar. -/
def Scalar.toJsString : Scalar → String
  | .s v => v
  | .n v => toString v
  | .b v => if v then "true" else "false"

/-- A query-parameter mapping value: undefined, null, a scalar, or an
array of scalars. -/
inductive PValue where
  | undef
  | nullv
  | scalar (x : Scalar)
  | arr (xs : List Scalar)
deriving Repr, DecidableEq

/-- The pairs appended by the `Object.entries(this.params).forEach` loop:
undefined and null values are skipped, an array appends one pair per
element in order, a scalar appends a single pair. -/
def queryPairs (params : List (String × PValue)) : List (String × String) :=
  params.flatMap fun kv =>
    match kv.2 with
    | .undef => []
    | .nullv => []
    | .scalar x => [(kv.1, x.toJsString)]
    | .arr xs => xs.map fun x => (kv.1, x.toJsString)

/-- `NeatFetch.buildUrl()`: resolve the base URL against a relative target
(stripping one boundary slash on each side), parse into a URL value, append
the query parameters, and serialize. -/
def buildUrl (url : String) (baseURL : Option String) (params : List (String × PValue)) : String :=
  let isAbsolute := hasScheme url
  let targetUrl :=
    match baseURL with
    | some b =>
      if b != "" && !isAbsolute then stripTrailingSlash b ++ "/" ++ stripLeadingSlash url
      else url
    | none => url
  let urlInstance := parseUrlInstance targetUrl
  URLModel.render
    { urlInstance with searchParams := urlInstance.searchParams ++ queryPairs params }

/-! The options object, header normalization, body serialization, the
constructor, the chain mutators and the HTTP-verb convenience operations. -/

/-- A body value a JS caller can hand to `post`/`put`/`patch`
(`serializeBody` branches on these shapes; `obj` is any other object,
carried together with its `JSON.stringify` image). -/
inductive JsData where
  | jsNull
  | form (f : FormVal)
  | blob (b : BlobData)
  | buf (a : BufData)
  | usp (q : String)
  | str (s : String)
  | obj (stringified : String)
deriving Repr, DecidableEq

/-- A BodyInit value as placed into the options (`usp` is URLSearchParams;
a JSON-encoded object becomes a plain string body). -/
inductive BodyInit where
  | form (f : FormVal)
  | blob (b : BlobData)
  | buf (a : BufData)
  | usp (q : String)
  | str (s : String)
deriving Repr, DecidableEq

/-- The `FetchOptions` object handed to the constructor. A header mapping is
an ordered key/value list (`Record<string, string>`); `none` means the field
is absent or undefined. `signal` records whether the caller attached a
cancellation token; `methodField` is the `method` RequestInit field. -/
structure FetchOptions where
  methodField : Option String := none
  body : Option BodyInit := none
  headers : Option (List (String × String)) := none
  signal : Bool := false
  params : List (String × PValue) := []
  timeout : Option Int := none
  retry : Option Int := none
  retryDelay : Option Int := none
  baseURL : Option String := none
deriving Repr, DecidableEq

/-- ASCII lowercasing of one character (JS toLowerCase as applied to header
names; non-ASCII header names are not modelled). -/
def lowerChar (c : Char) : Char :=
  if 65 ≤ c.toNat ∧ c.toNat ≤ 90 then Char.ofNat (c.toNat + 32) else c

/-- Lowercase a header key. -/
def lowerKey (s : String) : String :=
  String.mk (s.toList.map lowerChar)

/-- `normalizeHeaders`: lowercase every key. (`Object.fromEntries` also
keeps only the last occurrence of a duplicated key; lookups below are
therefore last-wins, which is observationally the same.) -/
def normalizeHeaders (headers : Option (List (String × String))) :
    List (String × String) :=
  match headers with
  | none => []
  | some hs => hs.map fun kv => (lowerKey kv.1, kv.2)

/-- Truthiness of `headersObj[k]`: the key is present (last occurrence
wins, as after `Object.fromEntries`) with a non-empty value. -/
def headerTruthy (hs : List (String × String)) (k : String) : Bool :=
  match (hs.filter fun kv => kv.1 == k).getLast? with
  | some kv => kv.2 != ""
  | none => false

/-- `NeatFetch.serializeBody(data)` (src/index.ts lines 258-288): null and
undefined yield neither body nor headers; native body kinds and strings
pass through with no headers; any other object is JSON-encoded and a
`content-type: application/json` header is injected only when the
normalized header mapping has no truthy `Content-Type`/`content-type`
entry. -/
def serializeBody (headersObj : List (String × String)) (data : JsData) :
    Option BodyInit × Option (List (String × String)) :=
  match data with
  | .jsNull => (none, none)
  | .form f => (some (.form f), none)
  | .blob b => (some (.blob b), none)
  | .buf a => (some (.buf a), none)
  | .usp q => (some (.usp q), none)
  | .str s => (some (.str s), none)
  | .obj stringified =>
    let headers :=
      if ¬ headerTruthy headersObj "Content-Type" ∧ ¬ headerTruthy headersObj "content-type" then
        [("content-type", "application/json")]
      else []
    (some (.str stringified), some headers)

/-- JS `v || dflt` for an optional numeric option: undefined and 0 are
falsy (NaN is not modelled). -/
def jsOrInt (v : Option Int) (dflt : Int) : Int :=
  match v with
  | some x => if x = 0 then dflt else x
  | none => dflt

/-- The constructor of `NeatFetch` (src/index.ts lines 108-125), restricted
to the fields the engine consumes: `retry || 0`, `retryDelay || 1000`, the
timeout, the caller signal, and the composed final URL. `retryCount` is
stored as the natural number `(retry || 0).toNat`; this is faithful because
the only use is the comparison `attempt < retryCount` with a natural
`attempt`, and `(a : Int) < r` iff `a < r.toNat` (lemma
`intLt_iff_lt_toNat` below). -/
def mkConfig (url : String) (options : FetchOptions) : Config :=
  { retryCount := (jsOrInt options.retry 0).toNat
    retryDelayMs := jsOrInt options.retryDelay 1000
    timeoutMs := options.timeout
    hasCallerSignal := options.signal
    finalUrl := buildUrl url options.baseURL options.params }

/-- Chain mutator `retry(count, delay = 1000)`: a new options record with
`retry` and `retryDelay` overridden. -/
def retryMutator (options : FetchOptions) (count : Int) (delay : Int := 1000) :
    FetchOptions :=
  { options with retry := some count, retryDelay := some delay }

/-- Chain mutator `timeout(ms)`. -/
def timeoutMutator (options : FetchOptions) (ms : Int) : FetchOptions :=
  { options with timeout := some ms }

/-- Options constructed by `get()`: `\x7b ...this.fetchOptions, method: "GET" \x7d`. -/
def getOptions (options : FetchOptions) : FetchOptions :=
  { options with methodField := some "GET" }

/-- Options constructed by `post(data)`: the receiver options spread with
`method`, the serialized `body` and the `headers` produced by
`serializeBody` (spread with explicitly named keys, so `body` and `headers`
override the spread fields even when undefined). -/
def postOptions (options : FetchOptions) (data : JsData) : FetchOptions :=
  let sb := serializeBody (normalizeHeaders options.headers) data
  { options with methodField := some "POST", body := sb.1, headers := sb.2 }

/-- Options constructed by `put(data)`. -/
def putOptions (options : FetchOptions) (data : JsData) : FetchOptions :=
  let sb := serializeBody (normalizeHeaders options.headers) data
  { options with methodField := some "PUT", body := sb.1, headers := sb.2 }

/-- Options constructed by `patch(data)`. -/
def patchOptions (options : FetchOptions) (data : JsData) : FetchOptions :=
  let sb := serializeBody (normalizeHeaders options.headers) data
  { options with methodField := some "PATCH", body := sb.1, headers := sb.2 }

/-- Options constructed by `delete()`. -/
def deleteOptions (options : FetchOptions) : FetchOptions :=
  { options with methodField := some "DELETE" }

/-- Options constructed by `head()`. -/
def headOptions (options : FetchOptions) : FetchOptions :=
  { options with methodField := some "HEAD" }

/-- Options constructed by `options()`. -/
def optionsVerbOptions (options : FetchOptions) : FetchOptions :=
  { options with methodField := some "OPTIONS" }

/-- `get()` end to end: build the new instance and decode its run as JSON. -/
def getOp (url : String) (options : FetchOptions) (transport : Transport) :
    FetchResultT JsonData :=
  jsonOp (mkConfig url (getOptions options)) transport

/-- `post(data)` end to end. -/
def postOp (url : String) (options : FetchOptions) (data : JsData)
    (transport : Transport) : FetchResultT JsonData :=
  jsonOp (mkConfig url (postOptions options data)) transport

/-- `put(data)` end to end. -/
def putOp (url : String) (options : FetchOptions) (data : JsData)
    (transport : Transport) : FetchResultT JsonData :=
  jsonOp (mkConfig url (putOptions options data)) transport

/-- `patch(data)` end to end. -/
def patchOp (url : String) (options : FetchOptions) (data : JsData)
    (transport : Transport) : FetchResultT JsonData :=
  jsonOp (mkConfig url (patchOptions options data)) transport

/-- `delete()` end to end: build the new instance and execute it. -/
def deleteOp (url : String) (options : FetchOptions) (transport : Transport) :
    FetchResultT Response :=
  (executeWithRetry (mkConfig url (deleteOptions options)) transport 0).result

/-- `head()` end to end. -/
def headOp (url : String) (options : FetchOptions) (transport : Transport) :
    FetchResultT Response :=
  (executeWithRetry (mkConfig url (headOptions options)) transport 0).result

/-- `options()` end to end. -/
def optionsOp (url : String) (options : FetchOptions) (transport : Transport) :
    FetchResultT Response :=
  (executeWithRetry (mkConfig url (optionsVerbOptions options)) transport 0).result

/-! Cancellation wiring of one attempt. The code creates a fresh
AbortController per attempt, schedules `controller.abort()` after
`timeoutMs` when a (truthy) timeout is configured, but attaches
`this.requestInit.signal || controller.signal` to the request - a fetch
call is cancelled only by the signal actually attached to it. -/

/-- The two cancellation signals that exist during an attempt. -/
inductive SignalId where
  | callerToken
  | internalController
deriving Repr, DecidableEq, BEq

/-- Which signal the attempt listens to:
`signal: this.requestInit.signal || controller.signal`. -/
def attachedSignalId (cfg : Config) : SignalId :=
  if cfg.hasCallerSignal then .callerToken else .internalController

/-- Whether the internal timeout timer is scheduled:
`this.timeoutMs ? setTimeout(() => controller.abort(), this.timeoutMs) : null`
(a zero timeout is falsy). -/
def timerScheduled (cfg : Config) : Bool :=
  match cfg.timeoutMs with
  | some t => t != 0
  | none => false

/-- Whether an abort fired on the given signal cancels the in-flight
attempt: the caller token must exist (resp. the internal timer must be
scheduled) and that signal must be the one attached to the fetch call. -/
def abortCancelsAttempt (cfg : Config) : SignalId → Bool
  | .callerToken => cfg.hasCallerSignal && (attachedSignalId cfg == .callerToken)
  | .internalController => timerScheduled cfg && (attachedSignalId cfg == .internalController)

/-! Result-shape predicates and trace projections used by the statements,
plus the concrete inputs the concrete statements evaluate the engine at. -/

/-- Exactly one slot of the tuple is populated. -/
def exactlyOne {α : Type} (p : FetchResultT α) : Prop :=
  (p.1.isSome = true ∧ p.2 = none) ∨ (p.1 = none ∧ p.2.isSome = true)

/-- The two slots are never simultaneously populated. -/
def neverBoth {α : Type} (p : FetchResultT α) : Prop :=
  ¬ (p.1.isSome = true ∧ p.2.isSome = true)

/-- Both slots are empty, i.e. the JS tuple is `[null, null]`. -/
def bothEmpty {α : Type} (p : FetchResultT α) : Prop :=
  p.1 = none ∧ p.2 = none

/-- The backoff waits of a sleep trace, in order, without the Retry-After
cooperation waits. -/
def backoffs (l : List SleepEvent) : List Int :=
  l.filterMap fun s =>
    match s with
    | .backoff ms => some ms
    | .retryAfterWait _ => none

/-- A 500 response with the usual status text. -/
def resp500 : Response :=
  { status := 500, statusText := "Internal Server Error" }

/-- A 404 response with the usual status text. -/
def resp404 : Response :=
  { status := 404, statusText := "Not Found" }

/-- A 204 No Content response. -/
def resp204 : Response :=
  { status := 204, statusText := "No Content" }

/-- A transport that always returns status 500. -/
def t500 : Transport := fun _ => .resp resp500

/-- A transport that always returns status 404. -/
def t404 : Transport := fun _ => .resp resp404

/-- A transport that always returns status 204. -/
def t204 : Transport := fun _ => .resp resp204

/-- Configuration with retry = 2. -/
def cfgRetry2 : Config := { retryCount := 2 }

/-- Configuration with retry = 3. -/
def cfgRetry3 : Config := { retryCount := 3 }

/-- The AbortError produced when the internal per-attempt timeout fires
`controller.abort()` (not triggered by the caller token). -/
def timeoutAbortError : JsError :=
  { name := "AbortError", message := "This operation was aborted"
    abortedByInternalTimeout := true }

/-- A transport whose call is aborted by the internal timeout on every
attempt. -/
def tAbort : Transport := fun _ => .err timeoutAbortError

/-- Configuration with a 50 ms timeout and one retry, no caller token. -/
def cfgC3 : Config := { retryCount := 1, timeoutMs := some 50 }

/-- A plain network failure (fetch rejects with a TypeError). -/
def netError : JsError := { name := "TypeError", message := "fetch failed" }

/-- A transport that fails with a network error on every attempt. -/
def tNet : Transport := fun _ => .err netError

/-- Configuration with a 50 ms timeout and a caller-supplied token. -/
def cfgC4 : Config := { timeoutMs := some 50, hasCallerSignal := true }

/-- Receiver options with a configured authorization header and timeout. -/
def optsC6 : FetchOptions :=
  { headers := some [("authorization", "Bearer token")], timeout := some 5000 }

/-- The all-defaults configuration (retry 0). -/
def cfg0 : Config := {}

/-- Configuration with retry = 2 and a 700 ms retry base delay. -/
def cfgC7 : Config := { retryCount := 2, retryDelayMs := 700 }

/-!
Theorems. First general lemmas about the engine, then one theorem per
specification claim.
-/

/-- Faithfulness of storing `retry || 0` as a natural number: for a natural
attempt index, the JS comparison `attempt < retryCount` over numbers agrees
with the comparison against `toNat` of the integer. -/
theorem intLt_iff_lt_toNat (r : Int) (a : Nat) : ((a : Int) < r) ↔ a < r.toNat := by
  omega

/-- Every run makes at least one transport call. -/
theorem attempts_pos (cfg : Config) (t : Transport) (a : Nat) :
    1 ≤ (executeWithRetry cfg t a).attempts := by
  induction a using executeWithRetry.induct cfg t with
  | case1 x r hx hok => rw [executeWithRetry.eq_def]; simp [hx, hok]
  | case2 x r hx hok hcond ih => rw [executeWithRetry.eq_def]; simp [hx, hok, hcond]
  | case3 x r hx hok hcond => rw [executeWithRetry.eq_def]; simp [hx, hok, hcond]
  | case4 x e hx hcond ih => rw [executeWithRetry.eq_def]; simp [hx, hcond]
  | case5 x e hx hcond => rw [executeWithRetry.eq_def]; simp [hx, hcond]

/-- The retry engine itself always settles with exactly one populated slot. -/
theorem exec_exactlyOne (cfg : Config) (t : Transport) (a : Nat) :
    exactlyOne (executeWithRetry cfg t a).result := by
  induction a using executeWithRetry.induct cfg t with
  | case1 x r hx hok => rw [executeWithRetry.eq_def]; simp [hx, hok, exactlyOne]
  | case2 x r hx hok hcond ih =>
    rw [executeWithRetry.eq_def]; simpa [hx, hok, hcond] using ih
  | case3 x r hx hok hcond => rw [executeWithRetry.eq_def]; simp [hx, hok, hcond, exactlyOne]
  | case4 x e hx hcond ih =>
    rw [executeWithRetry.eq_def]; simpa [hx, hcond] using ih
  | case5 x e hx hcond => rw [executeWithRetry.eq_def]; simp [hx, hcond, exactlyOne]

/-- Against a transport that always resolves the same non-ok response, the
run settles with the HttpError built from that response. -/
theorem constResp_result (cfg : Config) (r : Response) (hok : r.ok = false) (a : Nat) :
    (executeWithRetry cfg (fun _ => .resp r) a).result = (none, some (httpErrorOf cfg r)) := by
  induction a using executeWithRetry.induct cfg (fun _ => .resp r) with
  | case1 x r2 hx hok2 =>
    simp only [TransportOutcome.resp.injEq] at hx
    subst hx; rw [hok] at hok2; exact absurd hok2 (by simp)
  | case2 x r2 hx hok2 hcond ih =>
    simp only [TransportOutcome.resp.injEq] at hx
    subst hx
    rw [executeWithRetry.eq_def]; simp [hok2, hcond, ih]
  | case3 x r2 hx hok2 hcond =>
    simp only [TransportOutcome.resp.injEq] at hx
    subst hx
    rw [executeWithRetry.eq_def]; simp [hok2, hcond]
  | case4 x e hx hcond ih => simp at hx
  | case5 x e hx hcond => simp at hx

/-- Against a constant retryable non-ok response, a run starting at attempt
`a` makes `retryCount - a + 1` transport calls (the retry budget is a hard
ceiling). -/
theorem constResp_attempts (cfg : Config) (r : Response) (hok : r.ok = false)
    (hretry : 500 ≤ r.status ∨ r.status = 429) (a : Nat) :
    (executeWithRetry cfg (fun _ => .resp r) a).attempts = cfg.retryCount - a + 1 := by
  induction a using executeWithRetry.induct cfg (fun _ => .resp r) with
  | case1 x r2 hx hok2 =>
    simp only [TransportOutcome.resp.injEq] at hx
    subst hx; rw [hok] at hok2; exact absurd hok2 (by simp)
  | case2 x r2 hx hok2 hcond ih =>
    simp only [TransportOutcome.resp.injEq] at hx
    subst hx
    rw [executeWithRetry.eq_def]; simp [hok2, hcond, ih]
    omega
  | case3 x r2 hx hok2 hcond =>
    simp only [TransportOutcome.resp.injEq] at hx
    subst hx
    rw [executeWithRetry.eq_def]; simp [hok2, hcond]
    omega
  | case4 x e hx hcond ih => simp at hx
  | case5 x e hx hcond => simp at hx

/-- Against a constant non-retryable non-ok response, exactly one transport
call is made. -/
theorem constResp_attempts_noretry (cfg : Config) (r : Response) (hok : r.ok = false)
    (hretry : ¬ (500 ≤ r.status ∨ r.status = 429)) (a : Nat) :
    (executeWithRetry cfg (fun _ => .resp r) a).attempts = 1 := by
  rw [executeWithRetry.eq_def]
  simp [hok, hretry]

/-- The Retry-After cooperation wait contributes no backoff entries. -/
theorem backoffs_retryAfterSleeps (r : Response) : backoffs (retryAfterSleeps r) = [] := by
  unfold retryAfterSleeps
  split <;> simp [backoffs]

/-- `backoffs` distributes over list append. -/
theorem backoffs_append (l1 l2 : List SleepEvent) :
    backoffs (l1 ++ l2) = backoffs l1 ++ backoffs l2 := by
  simp [backoffs]

/-- The backoff trace of a single backoff event. -/
theorem backoffs_single (ms : Int) : backoffs [.backoff ms] = [ms] := rfl

/-- Closed form of the backoff waits of any run: starting at attempt `a`,
the i-th backoff (0-indexed) waits `retryDelayMs * (a + i + 1)`. -/
theorem backoffs_spec (cfg : Config) (t : Transport) (a : Nat) :
    backoffs (executeWithRetry cfg t a).sleeps =
      (List.range ((executeWithRetry cfg t a).attempts - 1)).map
        (fun i : Nat => cfg.retryDelayMs * ((a + i + 1 : Nat) : Int)) := by
  induction a using executeWithRetry.induct cfg t with
  | case1 x r hx hok => rw [executeWithRetry.eq_def]; simp [hx, hok, backoffs]
  | case2 x r hx hok hcond ih =>
    obtain ⟨m, hm⟩ : ∃ m, (executeWithRetry cfg t (x + 1)).attempts = m + 1 :=
      ⟨(executeWithRetry cfg t (x + 1)).attempts - 1, by
        have := attempts_pos cfg t (x + 1); omega⟩
    rw [executeWithRetry.eq_def]
    simp only [hx, hok, hcond, Bool.false_eq_true, if_false, dite_true, and_self]
    rw [backoffs_append, backoffs_append, backoffs_retryAfterSleeps, backoffs_single, ih, hm]
    simp only [List.nil_append, Nat.add_sub_cancel, List.range_succ_eq_map, List.map_cons,
      List.map_map, List.singleton_append]
    congr 1
    apply List.map_congr_left
    intro i _
    simp only [Function.comp_apply]
    push_cast
    ring
  | case3 x r hx hok hcond =>
    rw [executeWithRetry.eq_def]
    simp [hx, hok, hcond, backoffs_retryAfterSleeps]
  | case4 x e hx hcond ih =>
    obtain ⟨m, hm⟩ : ∃ m, (executeWithRetry cfg t (x + 1)).attempts = m + 1 :=
      ⟨(executeWithRetry cfg t (x + 1)).attempts - 1, by
        have := attempts_pos cfg t (x + 1); omega⟩
    rw [executeWithRetry.eq_def]
    simp only [hx, hcond, dite_true, and_self, ne_eq, not_false_eq_true]
    rw [backoffs_append, backoffs_single, ih, hm]
    simp only [Nat.add_sub_cancel, List.range_succ_eq_map, List.map_cons, List.map_map,
      List.singleton_append]
    congr 1
    apply List.map_congr_left
    intro i _
    simp only [Function.comp_apply]
    push_cast
    ring
  | case5 x e hx hcond => rw [executeWithRetry.eq_def]; simp [hx, hcond, backoffs]

/-- Shape of the json decoder on a well-formed execute tuple: never both
slots populated, and both empty exactly on an empty-body success. -/
theorem jsonDecode_spec (res : FetchResultT Response) (h : exactlyOne res) :
    neverBoth (jsonDecode res) ∧
      (bothEmpty (jsonDecode res) ↔
        ∃ r, res = (some r, none) ∧ (r.status = 204 ∨ r.contentLength = some "0")) := by
  obtain ⟨v, e⟩ := res
  rcases h with ⟨hv, he⟩ | ⟨hv, he⟩
  · obtain ⟨r, rfl⟩ := Option.isSome_iff_exists.mp hv
    simp only at he
    subst he
    by_cases hc : r.status = 204 ∨ r.contentLength = some "0"
    · simp [jsonDecode, hc, neverBoth, bothEmpty]
    · cases hj : r.jsonR with
      | ok d => simp [jsonDecode, hc, hj, neverBoth, bothEmpty]
      | error pe => simp [jsonDecode, hc, hj, neverBoth, bothEmpty]
  · simp only at hv
    subst hv
    obtain ⟨err, rfl⟩ := Option.isSome_iff_exists.mp he
    simp [jsonDecode, neverBoth, bothEmpty]

/-- The text decoder keeps the exactly-one shape. -/
theorem textDecode_exactlyOne (res : FetchResultT Response) (h : exactlyOne res) :
    exactlyOne (textDecode res) := by
  obtain ⟨v, e⟩ := res
  rcases h with ⟨hv, he⟩ | ⟨hv, he⟩
  · obtain ⟨r, rfl⟩ := Option.isSome_iff_exists.mp hv
    simp only at he
    subst he
    cases hj : r.textR with
    | ok d => simp [textDecode, hj, exactlyOne]
    | error pe => simp [textDecode, hj, exactlyOne]
  · simp only at hv
    subst hv
    obtain ⟨err, rfl⟩ := Option.isSome_iff_exists.mp he
    simp [textDecode, exactlyOne]

/-- The blob decoder keeps the exactly-one shape. -/
theorem blobDecode_exactlyOne (res : FetchResultT Response) (h : exactlyOne res) :
    exactlyOne (blobDecode res) := by
  obtain ⟨v, e⟩ := res
  rcases h with ⟨hv, he⟩ | ⟨hv, he⟩
  · obtain ⟨r, rfl⟩ := Option.isSome_iff_exists.mp hv
    simp only at he
    subst he
    cases hj : r.blobR with
    | ok d => simp [blobDecode, hj, exactlyOne]
    | error pe => simp [blobDecode, hj, exactlyOne]
  · simp only at hv
    subst hv
    obtain ⟨err, rfl⟩ := Option.isSome_iff_exists.mp he
    simp [blobDecode, exactlyOne]

/-- The arrayBuffer decoder keeps the exactly-one shape. -/
theorem arrayBufferDecode_exactlyOne (res : FetchResultT Response) (h : exactlyOne res) :
    exactlyOne (arrayBufferDecode res) := by
  obtain ⟨v, e⟩ := res
  rcases h with ⟨hv, he⟩ | ⟨hv, he⟩
  · obtain ⟨r, rfl⟩ := Option.isSome_iff_exists.mp hv
    simp only at he
    subst he
    cases hj : r.bufR with
    | ok d => simp [arrayBufferDecode, hj, exactlyOne]
    | error pe => simp [arrayBufferDecode, hj, exactlyOne]
  · simp only at hv
    subst hv
    obtain ⟨err, rfl⟩ := Option.isSome_iff_exists.mp he
    simp [arrayBufferDecode, exactlyOne]

/-- The formData decoder keeps the exactly-one shape. -/
theorem formDataDecode_exactlyOne (res : FetchResultT Response) (h : exactlyOne res) :
    exactlyOne (formDataDecode res) := by
  obtain ⟨v, e⟩ := res
  rcases h with ⟨hv, he⟩ | ⟨hv, he⟩
  · obtain ⟨r, rfl⟩ := Option.isSome_iff_exists.mp hv
    simp only at he
    subst he
    cases hj : r.formR with
    | ok d => simp [formDataDecode, hj, exactlyOne]
    | error pe => simp [formDataDecode, hj, exactlyOne]
  · simp only at hv
    subst hv
    obtain ⟨err, rfl⟩ := Option.isSome_iff_exists.mp he
    simp [formDataDecode, exactlyOne]

/-- Shape of the stream decoder on a well-formed execute tuple: never both
slots populated, and both empty exactly on a success with a null body. -/
theorem streamDecode_spec (res : FetchResultT Response) (h : exactlyOne res) :
    neverBoth (streamDecode res) ∧
      (bothEmpty (streamDecode res) ↔ ∃ r, res = (some r, none) ∧ r.body = none) := by
  obtain ⟨v, e⟩ := res
  rcases h with ⟨hv, he⟩ | ⟨hv, he⟩
  · obtain ⟨r, rfl⟩ := Option.isSome_iff_exists.mp hv
    simp only at he
    subst he
    cases hb : r.body with
    | some s => simp [streamDecode, hb, neverBoth, bothEmpty]
    | none => simp [streamDecode, hb, neverBoth, bothEmpty]
  · simp only at hv
    subst hv
    obtain ⟨err, rfl⟩ := Option.isSome_iff_exists.mp he
    simp [streamDecode, neverBoth, bothEmpty]

/-- Once the memo holds a run, any further consumption sequence observes
that run each time, leaves the state unchanged and issues zero transport
calls. -/
theorem consumeAll_memoized (cfg : Config) (t : Transport) (run : RunOut)
    (ops : List ConsumeOp) :
    consumeAll cfg t { executionPromise := some run } ops =
      (ops.map fun _ => run, { executionPromise := some run }, 0) := by
  induction ops with
  | nil => rfl
  | cons op ops ih => simp [consumeAll, consume, execute, ih]

/-- C1 counterexample: with a transport resolving 204 No Content, the json
terminal operation returns the tuple with BOTH slots empty, refuting the
claim that every terminal operation populates exactly one slot. -/
theorem claim1_counterexample :
    jsonOp cfg0 t204 = (none, none) ∧ ¬ exactlyOne (jsonOp cfg0 t204) := by
  have h : jsonOp cfg0 t204 = (none, none) := by
    unfold jsonOp
    rw [executeWithRetry.eq_def]
    simp [t204, resp204, Response.ok, jsonDecode]
  refine ⟨h, ?_⟩
  rw [h]
  simp [exactlyOne]

/-- C1 (amended): no terminal operation ever populates both slots, and
then/catch/finally, text, blob, arrayBuffer, formData, delete, head and
options populate exactly one slot; json - and the verb operations get,
post, put, patch, which decode through json - returns both slots empty
exactly when the underlying successful response has status 204 or a
literal "0" Content-Length header, and stream returns both slots empty
exactly when the successful response has a null body. -/
theorem claim1_result_shape (cfg : Config) (t : Transport) (url : String)
    (opts : FetchOptions) (data : JsData) :
    exactlyOne (thenOp cfg t) ∧ exactlyOne (catchOp cfg t) ∧ exactlyOne (finallyOp cfg t) ∧
    exactlyOne (textOp cfg t) ∧ exactlyOne (blobOp cfg t) ∧
    exactlyOne (arrayBufferOp cfg t) ∧ exactlyOne (formDataOp cfg t) ∧
    exactlyOne (deleteOp url opts t) ∧ exactlyOne (headOp url opts t) ∧
    exactlyOne (optionsOp url opts t) ∧
    neverBoth (jsonOp cfg t) ∧
    (bothEmpty (jsonOp cfg t) ↔
      ∃ r, (executeWithRetry cfg t 0).result = (some r, none) ∧
        (r.status = 204 ∨ r.contentLength = some "0")) ∧
    neverBoth (streamOp cfg t) ∧
    (bothEmpty (streamOp cfg t) ↔
      ∃ r, (executeWithRetry cfg t 0).result = (some r, none) ∧ r.body = none) ∧
    neverBoth (getOp url opts t) ∧ neverBoth (postOp url opts data t) ∧
    neverBoth (putOp url opts data t) ∧ neverBoth (patchOp url opts data t) :=
  ⟨exec_exactlyOne cfg t 0, exec_exactlyOne cfg t 0, exec_exactlyOne cfg t 0,
    textDecode_exactlyOne _ (exec_exactlyOne cfg t 0),
    blobDecode_exactlyOne _ (exec_exactlyOne cfg t 0),
    arrayBufferDecode_exactlyOne _ (exec_exactlyOne cfg t 0),
    formDataDecode_exactlyOne _ (exec_exactlyOne cfg t 0),
    exec_exactlyOne (mkConfig url (deleteOptions opts)) t 0,
    exec_exactlyOne (mkConfig url (headOptions opts)) t 0,
    exec_exactlyOne (mkConfig url (optionsVerbOptions opts)) t 0,
    (jsonDecode_spec _ (exec_exactlyOne cfg t 0)).1,
    (jsonDecode_spec _ (exec_exactlyOne cfg t 0)).2,
    (streamDecode_spec _ (exec_exactlyOne cfg t 0)).1,
    (streamDecode_spec _ (exec_exactlyOne cfg t 0)).2,
    (jsonDecode_spec _ (exec_exactlyOne (mkConfig url (getOptions opts)) t 0)).1,
    (jsonDecode_spec _ (exec_exactlyOne (mkConfig url (postOptions opts data)) t 0)).1,
    (jsonDecode_spec _ (exec_exactlyOne (mkConfig url (putOptions opts data)) t 0)).1,
    (jsonDecode_spec _ (exec_exactlyOne (mkConfig url (patchOptions opts data)) t 0)).1⟩

/-- C2: a non-ok response is retried iff the attempts made so far are
strictly below the retry count AND the status is at least 500 or equal to
429; concretely, retry = 2 against constant 500 makes exactly 3 attempts
and settles with the HTTP-status error, while retry = 3 against constant
404 makes exactly 1 attempt and settles with the error. -/
theorem claim2_http_retry_policy :
    (∀ (cfg : Config) (t : Transport) (attempt : Nat) (r : Response),
        t attempt = .resp r → r.ok = false →
        (1 < (executeWithRetry cfg t attempt).attempts ↔
          attempt < cfg.retryCount ∧ (500 ≤ r.status ∨ r.status = 429)))
    ∧ (executeWithRetry cfgRetry2 t500 0).attempts = 3
    ∧ (executeWithRetry cfgRetry2 t500 0).result = (none, some (httpErrorOf cfgRetry2 resp500))
    ∧ (executeWithRetry cfgRetry3 t404 0).attempts = 1
    ∧ (executeWithRetry cfgRetry3 t404 0).result = (none, some (httpErrorOf cfgRetry3 resp404)) := by
  refine ⟨?_, ?_, ?_, ?_, ?_⟩
  · intro cfg t attempt r hx hok
    rw [executeWithRetry.eq_def]
    by_cases hc : attempt < cfg.retryCount ∧ (500 ≤ r.status ∨ r.status = 429)
    · have hp := attempts_pos cfg t (attempt + 1)
      simp only [hx, hok, Bool.false_eq_true, if_false, dif_pos hc]
      constructor
      · intro _; exact hc
      · intro _; omega
    · simp only [hx, hok, Bool.false_eq_true, if_false, dif_neg hc]
      constructor
      · intro hlt; omega
      · intro hcc; exact absurd hcc hc
  · have := constResp_attempts cfgRetry2 resp500 (by decide) (by decide) 0
    simpa [t500, cfgRetry2] using this
  · have := constResp_result cfgRetry2 resp500 (by decide) 0
    simpa [t500] using this
  · have := constResp_attempts_noretry cfgRetry3 resp404 (by decide) (by decide) 0
    simpa [t404] using this
  · have := constResp_result cfgRetry3 resp404 (by decide) 0
    simpa [t404] using this

/-- C2 witness: the general retry criterion applied at the concrete 500
scenario, with its hypotheses discharged there. -/
theorem claim2_witness :
    t500 0 = .resp resp500 ∧ resp500.ok = false ∧
    (1 < (executeWithRetry cfgRetry2 t500 0).attempts ↔
      0 < cfgRetry2.retryCount ∧ (500 ≤ resp500.status ∨ resp500.status = 429)) :=
  ⟨rfl, by decide, claim2_http_retry_policy.1 cfgRetry2 t500 0 resp500 rfl (by decide)⟩

/-- C3 counterexample: an AbortError raised by the internal per-attempt
timeout (not by the caller token), with retry budget remaining, is NOT
retried - the run stops after one attempt - refuting the claim that only
caller-token cancellation is terminal. -/
theorem claim3_counterexample :
    cfgC3.retryCount = 1 ∧
    timeoutAbortError.abortedByCallerToken = false ∧
    timeoutAbortError.abortedByInternalTimeout = true ∧
    tAbort 0 = .err timeoutAbortError ∧
    (executeWithRetry cfgC3 tAbort 0).attempts = 1 ∧
    (executeWithRetry cfgC3 tAbort 0).result = (none, some timeoutAbortError) := by
  refine ⟨rfl, rfl, rfl, rfl, ?_, ?_⟩ <;>
    · rw [executeWithRetry.eq_def]
      simp [tAbort, timeoutAbortError]

/-- C3 (amended): a failed transport call is retried iff the attempts made
so far are strictly below the retry count AND the error name is not
"AbortError" - so any abort, whether fired by the caller token or by the
internal per-attempt timeout, is terminal; when the error is an AbortError
the run settles with it after this single attempt. -/
theorem claim3_transport_failure_policy (cfg : Config) (t : Transport) (attempt : Nat)
    (e : JsError) (hx : t attempt = .err e) :
    (1 < (executeWithRetry cfg t attempt).attempts ↔
      attempt < cfg.retryCount ∧ e.name ≠ "AbortError")
    ∧ (e.name = "AbortError" →
        (executeWithRetry cfg t attempt).result = (none, some e) ∧
          (executeWithRetry cfg t attempt).attempts = 1) := by
  rw [executeWithRetry.eq_def]
  by_cases hc : attempt < cfg.retryCount ∧ e.name ≠ "AbortError"
  · have hp := attempts_pos cfg t (attempt + 1)
    simp only [hx, dif_pos hc]
    exact ⟨⟨fun _ => hc, fun _ => by omega⟩, fun habort => absurd habort hc.2⟩
  · simp only [hx, dif_neg hc]
    exact ⟨⟨fun hlt => absurd hlt (by omega), fun hcc => absurd hcc hc⟩,
      fun _ => ⟨trivial, trivial⟩⟩

/-- C3 witness: the amended criterion applied to a concrete network
failure with retry budget, whose retry follows from the criterion. -/
theorem claim3_witness :
    tNet 0 = .err netError ∧
    (1 < (executeWithRetry cfgC3 tNet 0).attempts ↔
      0 < cfgC3.retryCount ∧ netError.name ≠ "AbortError") :=
  ⟨rfl, (claim3_transport_failure_policy cfgC3 tNet 0 netError rfl).1⟩

/-- C4 (code evaluation at the failing input): with `timeout: 50` and a
caller-supplied token, the internal timer is scheduled but the attempt
listens only to the caller token, so the internal timeout CANNOT abort the
attempt - while without a caller token it can. The claim (and the spec)
say both tokens can independently abort; the code attaches
`requestInit.signal || controller.signal`, discarding the internal
controller whenever a caller signal exists. -/
theorem claim4_internal_timeout_cannot_abort :
    timerScheduled cfgC4 = true ∧
    attachedSignalId cfgC4 = .callerToken ∧
    abortCancelsAttempt cfgC4 .internalController = false ∧
    abortCancelsAttempt cfgC4 .callerToken = true ∧
    abortCancelsAttempt { timeoutMs := some 50 } .internalController = true := by
  decide

/-- C5: consuming one instance any positive number of times - through
then/catch/finally or any decoding operation - runs the retry loop once:
the total transport calls equal the attempts of that single run, every
consumption observes the same memoized run, and the memo ends populated
with it. -/
theorem claim5_memoized_execution (cfg : Config) (t : Transport)
    (ops : List ConsumeOp) (hne : ops ≠ []) :
    consumeAll cfg t { executionPromise := none } ops =
      (ops.map fun _ => executeWithRetry cfg t 0,
        { executionPromise := some (executeWithRetry cfg t 0) },
        (executeWithRetry cfg t 0).attempts) := by
  cases ops with
  | nil => exact absurd rfl hne
  | cons op ops =>
    simp [consumeAll, consume, execute, consumeAll_memoized]

/-- C5 witness: a json consumption followed by a then consumption of the
same instance issues exactly the transport calls of one run. -/
theorem claim5_witness :
    ([ConsumeOp.jsonC, ConsumeOp.thenC] ≠ ([] : List ConsumeOp)) ∧
    consumeAll cfg0 t204 { executionPromise := none } [ConsumeOp.jsonC, ConsumeOp.thenC] =
      ([ConsumeOp.jsonC, ConsumeOp.thenC].map fun _ => executeWithRetry cfg0 t204 0,
        { executionPromise := some (executeWithRetry cfg0 t204 0) },
        (executeWithRetry cfg0 t204 0).attempts) :=
  ⟨by simp, claim5_memoized_execution cfg0 t204 [ConsumeOp.jsonC, ConsumeOp.thenC] (by simp)⟩

/-- C6 (code evaluation at the failing input): post on a receiver with a
configured authorization header builds options whose headers are REPLACED
by just the injected content-type mapping - the authorization header is
dropped (and with a null payload the headers field is wiped to undefined) -
while method, body, and the remaining fields behave as claimed. The claim
(and the serializeBody logic, which checks for an existing Content-Type
precisely so user headers can coexist, and the documented usage of
configured clients) require configured request headers to be carried over;
put and patch share the same construction. -/
theorem claim6_verb_headers_replaced :
    (postOptions optsC6 (.obj "payload")).methodField = some "POST" ∧
    (postOptions optsC6 (.obj "payload")).body = some (.str "payload") ∧
    (postOptions optsC6 (.obj "payload")).headers =
      some [("content-type", "application/json")] ∧
    (postOptions optsC6 (.obj "payload")).timeout = optsC6.timeout ∧
    (postOptions optsC6 (.obj "payload")).baseURL = optsC6.baseURL ∧
    (postOptions optsC6 (.obj "payload")).params = optsC6.params ∧
    (putOptions optsC6 (.obj "payload")).headers =
      some [("content-type", "application/json")] ∧
    (patchOptions optsC6 (.obj "payload")).headers =
      some [("content-type", "application/json")] ∧
    (postOptions optsC6 .jsNull).headers = none := by
  decide

/-- C7: with a positive retry base delay, the backoff wait inserted before
retry attempt N (the first retry being N = 1) is `retryDelayMs * N` -
linear in the attempt index - for every transport behaviour, i.e. both for
retried HTTP-status failures and for retried transport failures. -/
theorem claim7_linear_backoff (cfg : Config) (t : Transport)
    (_hpos : 0 < cfg.retryDelayMs) :
    backoffs (executeWithRetry cfg t 0).sleeps =
      (List.range ((executeWithRetry cfg t 0).attempts - 1)).map
        (fun n : Nat => cfg.retryDelayMs * ((n + 1 : Nat) : Int)) := by
  simpa using backoffs_spec cfg t 0

/-- C7 witness: the linear backoff law applied to a concrete run (retry 2,
delay 700, constant network failure). -/
theorem claim7_witness :
    (0 : Int) < cfgC7.retryDelayMs ∧
    backoffs (executeWithRetry cfgC7 tNet 0).sleeps =
      (List.range ((executeWithRetry cfgC7 tNet 0).attempts - 1)).map
        (fun n : Nat => cfgC7.retryDelayMs * ((n + 1 : Nat) : Int)) :=
  ⟨by decide, claim7_linear_backoff cfgC7 tNet (by decide)⟩

/-- C8: decoding a successful response as json when the status is 204 or
the Content-Length header is the literal "0" yields the tuple with both
slots empty - no parse is attempted - both for the raw decoder and for the
whole pipeline. -/
theorem claim8_empty_body_json (cfg : Config) (t : Transport) (r : Response)
    (hx : t 0 = .resp r) (hok : r.ok = true)
    (hempty : r.status = 204 ∨ r.contentLength = some "0") :
    jsonOp cfg t = (none, none) ∧ jsonDecode (some r, none) = (none, none) := by
  have hd : jsonDecode (some r, none) = (none, none) := by
    rcases hempty with h | h <;> simp [jsonDecode, h]
  refine ⟨?_, hd⟩
  unfold jsonOp
  rw [executeWithRetry.eq_def]
  simpa [hx, hok] using hd

/-- C8 witness: the empty-body rule applied to a concrete 204 response. -/
theorem claim8_witness :
    t204 0 = .resp resp204 ∧ resp204.ok = true ∧
    (resp204.status = 204 ∨ resp204.contentLength = some "0") ∧
    jsonOp cfg0 t204 = (none, none) :=
  ⟨rfl, by decide, by decide,
    (claim8_empty_body_json cfg0 t204 resp204 rfl (by decide) (by decide)).1⟩

/-- C9: URL composition skips null and undefined parameter values, appends
one pair per array element in order and a single pair for a scalar, with
standard query percent-encoding; composing "users" against base
"https://api.test/" with page 1 and tag ["a", "b"] yields exactly
"https://api.test/users?page=1&tag=a&tag=b". -/
theorem claim9_url_composition :
    (∀ (url : String) (b : Option String) (k : String) (rest : List (String × PValue)),
        buildUrl url b ((k, .nullv) :: rest) = buildUrl url b rest)
    ∧ (∀ (url : String) (b : Option String) (k : String) (rest : List (String × PValue)),
        buildUrl url b ((k, .undef) :: rest) = buildUrl url b rest)
    ∧ (∀ (k : String) (x : Scalar) (rest : List (String × PValue)),
        queryPairs ((k, .scalar x) :: rest) = (k, x.toJsString) :: queryPairs rest)
    ∧ (∀ (k : String) (xs : List Scalar) (rest : List (String × PValue)),
        queryPairs ((k, .arr xs) :: rest) =
          (xs.map fun x => (k, x.toJsString)) ++ queryPairs rest)
    ∧ buildUrl "users" (some "https://api.test/")
        [("page", .scalar (.n 1)), ("tag", .arr [.s "a", .s "b"])] =
      "https://api.test/users?page=1&tag=a&tag=b"
    ∧ buildUrl "u" none [("q", .scalar (.s "a b"))] = "http://localhost/u?q=a+b" := by
  refine ⟨?_, ?_, ?_, ?_, by decide, by decide⟩
  · intro url b k rest; simp [buildUrl, queryPairs]
  · intro url b k rest; simp [buildUrl, queryPairs]
  · intro k x rest; simp [queryPairs]
  · intro k xs rest; simp [queryPairs]

/-- C10: a retry base delay explicitly configured as 0 - through the
options record or through the retry chain mutator - is coerced by the
constructor to the 1000 ms default, while a non-zero configured delay
passes through. -/
theorem claim10_zero_retry_delay (options : FetchOptions) (count : Int) (url : String) :
    (mkConfig url (retryMutator options count 0)).retryDelayMs = 1000 ∧
    (mkConfig url { options with retryDelay := some 0 }).retryDelayMs = 1000 ∧
    (mkConfig url { options with retryDelay := some 250 }).retryDelayMs = 250 := by
  refine ⟨?_, ?_, ?_⟩ <;> simp [mkConfig, retryMutator, jsOrInt]

end NeatFetch
